import Mathlib

/-
Shallow embedding of flutter/shell/platform/windows/win32_window.cc
(src/shell/platform/windows/win32_window.cc).

The per-window mutable members of the C++ class Win32Window become the
fields of the structure Win32Window below.  The function-local variable
declared at line 199 of the source,

    static char32_t lead_surrogate = 0;

has static storage duration, so there is ONE copy of it shared by every
Win32Window instance and by every call of MessageHandler; it is therefore
modelled as a separate value threaded through the handler rather than as a
field of the window structure.

Calls into the native OS (TrackMouseEvent, SetCapture, ReleaseCapture,
DestroyWindow, RegisterClass, UnregisterClass, CreateWindowEx) are recorded
as NativeCall values; the virtual callback hooks that the class invokes
(OnDpiScale, OnResize, OnFontChange, OnPointerMove, OnPointerLeave,
OnPointerDown, OnPointerUp, OnScroll, OnChar, OnKey) are recorded as Event
values, in the order the source invokes them.  The external key-mapping
service MapVirtualKey and the DPI query GetDpiForHWND are parameters of the
handler, gathered in the Env structure.
-/

namespace EngineWin32

/-- Windows message and key constants used by win32_window.cc, with the
numeric values of the Windows SDK headers. -/
def WM_SIZE : Nat := 0x0005
def WM_FONTCHANGE : Nat := 0x001D
def WM_KEYDOWN : Nat := 0x0100
def WM_KEYUP : Nat := 0x0101
def WM_CHAR : Nat := 0x0102
def WM_DEADCHAR : Nat := 0x0103
def WM_SYSKEYDOWN : Nat := 0x0104
def WM_SYSKEYUP : Nat := 0x0105
def WM_SYSCHAR : Nat := 0x0106
def WM_SYSDEADCHAR : Nat := 0x0107
def WM_UNICHAR : Nat := 0x0109
def UNICODE_NOCHAR : Nat := 0xFFFF
def WM_MOUSEMOVE : Nat := 0x0200
def WM_LBUTTONDOWN : Nat := 0x0201
def WM_LBUTTONUP : Nat := 0x0202
def WM_RBUTTONDOWN : Nat := 0x0204
def WM_RBUTTONUP : Nat := 0x0205
def WM_MBUTTONDOWN : Nat := 0x0207
def WM_MBUTTONUP : Nat := 0x0208
def WM_MOUSEWHEEL : Nat := 0x020A
def WM_XBUTTONDOWN : Nat := 0x020B
def WM_XBUTTONUP : Nat := 0x020C
def WM_MOUSELEAVE : Nat := 0x02A3
def VK_BACK : Nat := 0x08
def VK_SHIFT : Nat := 0x10
def VK_CONTROL : Nat := 0x11
def VK_MENU : Nat := 0x12
def WHEEL_DELTA : Nat := 120

/-- kWmDpiChangedBeforeParent is WM_DPICHANGED_BEFOREPARENT (0x02E2),
named in the header of the class. -/
def kWmDpiChangedBeforeParent : Nat := 0x02E2

/-- LOWORD extracts the low 16 bits of a packed parameter. -/
def LOWORD (x : Nat) : Nat := x % 65536

/-- HIWORD extracts bits 16..31 of a packed parameter. -/
def HIWORD (x : Nat) : Nat := (x / 65536) % 65536

/-- toInt16 reinterprets the low 16 bits of a value as a signed 16-bit
integer, as the C++ cast to short does. -/
def toInt16 (n : Nat) : Int :=
  let v := n % 65536
  if v < 32768 then (v : Int) else (v : Int) - 65536

/-- GET_X_LPARAM extracts the signed x coordinate from an lparam. -/
def GET_X_LPARAM (l : Nat) : Int := toInt16 l

/-- GET_Y_LPARAM extracts the signed y coordinate from an lparam. -/
def GET_Y_LPARAM (l : Nat) : Int := toInt16 (l / 65536)

/-- GET_XBUTTON_WPARAM extracts the extended-button id from a wparam. -/
def GET_XBUTTON_WPARAM (w : Nat) : Nat := HIWORD w

/-- Event records one invocation of a virtual callback hook of
Win32Window, with the arguments the source passes. -/
inductive Event where
  | DpiScale (dpi : Nat)
  | Resize (width height : Nat)
  | FontChange
  | PointerMove (x y : Int)
  | PointerLeave
  | PointerDown (x y : Int) (button : Nat)
  | PointerUp (x y : Int) (button : Nat)
  | Scroll (dx dy : Rat)
  | Char (code_point : Nat)
  | Key (key scancode action character : Nat)
  deriving DecidableEq

/-- Event.isChar tests whether an event is a Char event. -/
def Event.isChar : Event → Bool
  | .Char _ => true
  | _ => false

/-- Event.isKey tests whether an event is a Key event. -/
def Event.isKey : Event → Bool
  | .Key _ _ _ _ => true
  | _ => false

/-- Event.isPointerLeave tests whether an event is a PointerLeave event. -/
def Event.isPointerLeave : Event → Bool
  | .PointerLeave => true
  | _ => false

/-- NativeCall records one call the class makes into the native windowing
subsystem. -/
inductive NativeCall where
  | TrackMouseEvent (hwnd : Nat)
  | SetCapture (hwnd : Nat)
  | ReleaseCapture
  | DestroyWindow (hwnd : Nat)
  | RegisterClass (className : String)
  | UnregisterClass (className : String)
  | CreateWindowNative (className : String) (width height : Nat)
  deriving DecidableEq

/-- Win32Window holds the per-instance mutable members of the C++ class.
Native window handles are modelled as Nat; window_handle_ is an Option
because the source uses nullptr for the absent handle.  The member
keycode_for_char_message_ is declared in the class header (not under src);
per the source assignments it stores a 32-bit keycode, 0 meaning none. -/
structure Win32Window where
  window_handle_ : Option Nat
  current_width_ : Nat
  current_height_ : Nat
  current_dpi_ : Nat
  tracking_mouse_leave_ : Bool
  keycode_for_char_message_ : Nat
  window_class_name_ : String
  deriving DecidableEq

/-- Env bundles the external services the handler calls: the two
MapVirtualKey mappings (MAPVK_VK_TO_CHAR and MAPVK_VSC_TO_VK_EX) and the
GetDpiForHWND query. -/
structure Env where
  MapVirtualKeyToChar : Nat → Nat
  MapVirtualKeyVscToVkEx : Nat → Nat
  GetDpiForHWND : Option Nat → Nat

/-- HandlerResult is the outcome of processing one message: the new value
of the shared static lead_surrogate variable, the new window state, the
callback events emitted, and the native calls made, each in source order. -/
structure HandlerResult where
  lead_surrogate : Nat
  state : Win32Window
  events : List Event
  native : List NativeCall
  deriving DecidableEq

/-- TrackMouseLeaveEvent (source lines 92-101): if leave tracking is not
armed, call TrackMouseEvent and set tracking_mouse_leave_ to true;
otherwise do nothing. -/
def Win32Window.TrackMouseLeaveEvent (s : Win32Window) (hwnd : Nat) :
    Win32Window × List NativeCall :=
  if !s.tracking_mouse_leave_ then
    ({ s with tracking_mouse_leave_ := true }, [NativeCall.TrackMouseEvent hwnd])
  else
    (s, [])

/-- HandleResize (source lines 292-296): store the new size and invoke the
OnResize hook. -/
def Win32Window.HandleResize (s : Win32Window) (width height : Nat) :
    Win32Window × List Event :=
  ({ s with current_width_ := width, current_height_ := height },
   [Event.Resize width height])

/-- mergeSurrogate embeds source lines 202-209: given the current value of
the static lead_surrogate and the decoded code point, return the resolved
code point and the new value of lead_surrogate.  A high surrogate is
stored; a low surrogate following a nonzero stored value merges by the
UTF-16 pair formula and clears the stored value; anything else leaves both
the code point and the stored value unchanged. -/
def mergeSurrogate (lead code_point : Nat) : Nat × Nat :=
  if code_point &&& 0xFFFFFC00 == 0xD800 then
    (code_point, code_point)
  else if lead != 0 && (code_point &&& 0xFFFFFC00 == 0xDC00) then
    (0x10000 + ((lead &&& 0x000003FF) <<< 10) + (code_point &&& 0x3FF), 0)
  else
    (code_point, lead)

/-- resolveKeyCode embeds source lines 250-256: the key code is the wparam
truncated to 32 bits, except that the generic modifier keys VK_SHIFT,
VK_MENU and VK_CONTROL are disambiguated into their left/right variant via
MapVirtualKey(scancode, MAPVK_VSC_TO_VK_EX). -/
def resolveKeyCode (env : Env) (keyCode scancode : Nat) : Nat :=
  if keyCode == VK_SHIFT || keyCode == VK_MENU || keyCode == VK_CONTROL then
    env.MapVirtualKeyVscToVkEx scancode
  else
    keyCode

/-- MessageHandler (source lines 103-265).  The resolved flag models the
window-pointer null check at line 114 (GetWindowLongPtr resolving the
owning instance); when false every message falls through to default
handling with no state change and no event.  lead is the current value of
the shared static lead_surrogate.  Return values passed to DefWindowProc
are not modelled; only state updates, callback events and native calls
are. -/
def Win32Window.MessageHandler (env : Env) (resolved : Bool) (lead : Nat)
    (s : Win32Window) (hwnd message wparam lparam : Nat) : HandlerResult :=
  if !resolved then ⟨lead, s, [], []⟩
  else if message == kWmDpiChangedBeforeParent then
    let dpi := env.GetDpiForHWND s.window_handle_
    ⟨lead, { s with current_dpi_ := dpi }, [Event.DpiScale dpi], []⟩
  else if message == WM_SIZE then
    let width := LOWORD lparam
    let height := HIWORD lparam
    let s1 := { s with current_width_ := width, current_height_ := height }
    let p := s1.HandleResize width height
    ⟨lead, p.1, p.2, []⟩
  else if message == WM_FONTCHANGE then
    ⟨lead, s, [Event.FontChange], []⟩
  else if message == WM_MOUSEMOVE then
    let p := s.TrackMouseLeaveEvent hwnd
    ⟨lead, p.1, [Event.PointerMove (GET_X_LPARAM lparam) (GET_Y_LPARAM lparam)], p.2⟩
  else if message == WM_MOUSELEAVE then
    ⟨lead, { s with tracking_mouse_leave_ := false }, [Event.PointerLeave], []⟩
  else if message == WM_LBUTTONDOWN || message == WM_RBUTTONDOWN ||
      message == WM_MBUTTONDOWN || message == WM_XBUTTONDOWN then
    let capture := if message == WM_LBUTTONDOWN then [NativeCall.SetCapture hwnd] else []
    let button_pressed :=
      if message == WM_XBUTTONDOWN then GET_XBUTTON_WPARAM wparam else message
    ⟨lead, s,
      [Event.PointerDown (GET_X_LPARAM lparam) (GET_Y_LPARAM lparam) button_pressed],
      capture⟩
  else if message == WM_LBUTTONUP || message == WM_RBUTTONUP ||
      message == WM_MBUTTONUP || message == WM_XBUTTONUP then
    let release := if message == WM_LBUTTONUP then [NativeCall.ReleaseCapture] else []
    let button_pressed :=
      if message == WM_XBUTTONUP then GET_XBUTTON_WPARAM wparam else message
    ⟨lead, s,
      [Event.PointerUp (GET_X_LPARAM lparam) (GET_Y_LPARAM lparam) button_pressed],
      release⟩
  else if message == WM_MOUSEWHEEL then
    ⟨lead, s, [Event.Scroll 0 (-((toInt16 (HIWORD wparam) : Rat) / (WHEEL_DELTA : Rat)))], []⟩
  else if message == WM_UNICHAR then
    ⟨lead, s, [], []⟩
  else if message == WM_DEADCHAR || message == WM_SYSDEADCHAR ||
      message == WM_CHAR || message == WM_SYSCHAR then
    let p := mergeSurrogate lead (wparam % 2 ^ 32)
    let code_point := p.1
    let charEvents :=
      if wparam != VK_BACK && message != WM_DEADCHAR && message != WM_SYSDEADCHAR then
        [Event.Char code_point]
      else []
    if s.keycode_for_char_message_ != 0 then
      let scancode := (lparam >>> 16) &&& 0xff
      ⟨p.2, { s with keycode_for_char_message_ := 0 },
        charEvents ++ [Event.Key s.keycode_for_char_message_ scancode WM_KEYDOWN code_point],
        []⟩
    else
      ⟨p.2, s, charEvents, []⟩
  else if message == WM_KEYDOWN || message == WM_SYSKEYDOWN ||
      message == WM_KEYUP || message == WM_SYSKEYUP then
    let is_keydown_message := message == WM_KEYDOWN || message == WM_SYSKEYDOWN
    let character := env.MapVirtualKeyToChar (wparam % 2 ^ 32)
    if character > 0 && is_keydown_message then
      ⟨lead, { s with keycode_for_char_message_ := wparam % 2 ^ 32 }, [], []⟩
    else
      let scancode := (lparam >>> 16) &&& 0xff
      let keyCode := resolveKeyCode env (wparam % 2 ^ 32) scancode
      let action := if is_keydown_message then WM_KEYDOWN else WM_KEYUP
      ⟨lead, s, [Event.Key keyCode scancode action 0], []⟩
  else
    ⟨lead, s, [], []⟩

/-- processMessages feeds a list of (message, wparam, lparam) triples
through MessageHandler in order, threading the shared lead_surrogate and
the window state, and concatenating events and native calls. -/
def processMessages (env : Env) (hwnd : Nat) (lead : Nat) (s : Win32Window) :
    List (Nat × Nat × Nat) → HandlerResult
  | [] => ⟨lead, s, [], []⟩
  | (m, w, l) :: rest =>
    let r := s.MessageHandler env true lead hwnd m w l
    let r2 := processMessages env hwnd r.lead_surrogate r.state rest
    ⟨r2.lead_surrogate, r2.state, r.events ++ r2.events, r.native ++ r2.native⟩

/-- Destroy (source lines 283-290): if a handle is stored, call
DestroyWindow on it and clear it; then always call UnregisterClass on the
stored class name. -/
def Win32Window.Destroy (s : Win32Window) : Win32Window × List NativeCall :=
  match s.window_handle_ with
  | some h =>
    ({ s with window_handle_ := none },
     [NativeCall.DestroyWindow h, NativeCall.UnregisterClass s.window_class_name_])
  | none =>
    (s, [NativeCall.UnregisterClass s.window_class_name_])

/-- InitializeChild (source lines 22-46): run Destroy first, register the
window class (RegisterWindowClass stores the class name, line 57), then
request native window creation.  The new handle is not stored here: it is
recorded only when the creation message WM_NCCREATE arrives (line 84). -/
def Win32Window.InitializeChild (s : Win32Window) (title : String)
    (width height : Nat) : Win32Window × List NativeCall :=
  let p := s.Destroy
  let s2 := { p.1 with window_class_name_ := title }
  (s2, p.2 ++ [NativeCall.RegisterClass title,
               NativeCall.CreateWindowNative title width height])

/-- wndProcNcCreate embeds the WM_NCCREATE arm of WndProc (source lines
78-84): the creation message stores the new native handle on the
instance. -/
def Win32Window.wndProcNcCreate (s : Win32Window) (hwnd : Nat) : Win32Window :=
  { s with window_handle_ := some hwnd }

/-- SysState models two live Win32Window instances A and B together with
the single shared copy of the function-local static lead_surrogate. -/
structure SysState where
  lead_surrogate : Nat
  winA : Win32Window
  winB : Win32Window
  deriving DecidableEq

/-- Target selects which window a message is delivered to. -/
inductive Target where
  | A
  | B
  deriving DecidableEq

/-- sysStep delivers one message to the chosen window, updating the shared
lead_surrogate and that window state, and returns the events emitted. -/
def sysStep (env : Env) (hwndA hwndB : Nat) (sys : SysState) (t : Target)
    (message wparam lparam : Nat) : SysState × List Event :=
  match t with
  | .A =>
    let r := sys.winA.MessageHandler env true sys.lead_surrogate hwndA message wparam lparam
    ({ sys with lead_surrogate := r.lead_surrogate, winA := r.state }, r.events)
  | .B =>
    let r := sys.winB.MessageHandler env true sys.lead_surrogate hwndB message wparam lparam
    ({ sys with lead_surrogate := r.lead_surrogate, winB := r.state }, r.events)

/-- envTest is a concrete environment for witnesses: no virtual key maps
to a character, scancode-to-extended-vk is the identity, DPI is 96. -/
def envTest : Env :=
  { MapVirtualKeyToChar := fun _ => 0
    MapVirtualKeyVscToVkEx := fun sc => sc
    GetDpiForHWND := fun _ => 96 }

/-- envTestChar is a concrete environment for witnesses in which every
virtual key maps to a printable character. -/
def envTestChar : Env :=
  { MapVirtualKeyToChar := fun vk => vk
    MapVirtualKeyVscToVkEx := fun sc => sc
    GetDpiForHWND := fun _ => 96 }

/-- s0 is a concrete window state for witnesses: live handle 1, no pending
keycode, leave tracking unarmed. -/
def s0 : Win32Window :=
  { window_handle_ := some 1
    current_width_ := 0
    current_height_ := 0
    current_dpi_ := 96
    tracking_mouse_leave_ := false
    keycode_for_char_message_ := 0
    window_class_name_ := "FLUTTER_RUNNER_WIN32_WINDOW" }

/-- sPending is s0 with a pending key-down keycode 65 recorded. -/
def sPending : Win32Window :=
  { s0 with keycode_for_char_message_ := 65 }

/-- allWmChar abbreviates membership of a message code in the
character-family arm of the switch (WM_DEADCHAR, WM_SYSDEADCHAR, WM_CHAR,
WM_SYSCHAR). -/
def allWmChar (message : Nat) : Prop :=
  message = WM_CHAR ∨ message = WM_SYSCHAR ∨ message = WM_DEADCHAR ∨ message = WM_SYSDEADCHAR

instance (message : Nat) : Decidable (allWmChar message) := by
  unfold allWmChar
  infer_instance

/-- Helper: the character-family arm of MessageHandler in closed form.
The resulting state always has the pending keycode cleared (when it was
already 0 the update is the identity); the events are the optional Char
followed by the optional correlated Key, both carrying the code point
resolved by mergeSurrogate; the new shared lead_surrogate is the one
mergeSurrogate returns. -/
theorem MessageHandler_char_step (env : Env) (lead : Nat) (s : Win32Window)
    (hwnd message wparam lparam : Nat) (hm : allWmChar message) :
    s.MessageHandler env true lead hwnd message wparam lparam =
      ⟨(mergeSurrogate lead (wparam % 2 ^ 32)).2,
       { s with keycode_for_char_message_ := 0 },
       (if wparam ≠ VK_BACK ∧ (message = WM_CHAR ∨ message = WM_SYSCHAR) then
          [Event.Char (mergeSurrogate lead (wparam % 2 ^ 32)).1]
        else []) ++
       (if s.keycode_for_char_message_ ≠ 0 then
          [Event.Key s.keycode_for_char_message_ ((lparam >>> 16) &&& 0xff) WM_KEYDOWN
            (mergeSurrogate lead (wparam % 2 ^ 32)).1]
        else []),
       []⟩ := by
  obtain ⟨wh, cw, ch, cd, tm, kc, cn⟩ := s
  rcases hm with rfl | rfl | rfl | rfl <;>
    by_cases hk : kc = 0 <;>
      by_cases hw : wparam = 8 <;>
        simp_all [Win32Window.MessageHandler, WM_CHAR, WM_SYSCHAR, WM_DEADCHAR,
          WM_SYSDEADCHAR, kWmDpiChangedBeforeParent, WM_SIZE, WM_FONTCHANGE, WM_MOUSEMOVE,
          WM_MOUSELEAVE, WM_LBUTTONDOWN, WM_RBUTTONDOWN, WM_MBUTTONDOWN, WM_XBUTTONDOWN,
          WM_LBUTTONUP, WM_RBUTTONUP, WM_MBUTTONUP, WM_XBUTTONUP, WM_MOUSEWHEEL,
          WM_UNICHAR, VK_BACK, WM_KEYDOWN, WM_SYSKEYDOWN, WM_KEYUP, WM_SYSKEYUP]

/-- Claim C9: a mouse-leave message emits a PointerLeave event and clears
the leave-tracking flag unconditionally; the handler does not consult the
armed flag, so this holds from every state, in particular when tracking
was never armed. -/
theorem c9_mouse_leave_unconditional (env : Env) (lead : Nat) (s : Win32Window)
    (hwnd wparam lparam : Nat) :
    s.MessageHandler env true lead hwnd WM_MOUSELEAVE wparam lparam =
      ⟨lead, { s with tracking_mouse_leave_ := false }, [Event.PointerLeave], []⟩ := by
  rfl

/-- Claim C8: Destroy requests native destruction and clears the handle
when one is stored, always unregisters the window class afterward (also
when the handle was already clear), and is idempotent on the window
state: a second Destroy makes no DestroyWindow call and leaves the state
of a single Destroy unchanged. -/
theorem c8_destroy_idempotent (s : Win32Window) :
    (∀ h, s.window_handle_ = some h →
      (s.Destroy).1.window_handle_ = none ∧
      NativeCall.DestroyWindow h ∈ (s.Destroy).2) ∧
    NativeCall.UnregisterClass s.window_class_name_ ∈ (s.Destroy).2 ∧
    (s.Destroy).1.Destroy =
      ((s.Destroy).1, [NativeCall.UnregisterClass s.window_class_name_]) := by
  cases hs : s.window_handle_ <;>
    simp [Win32Window.Destroy, hs]

/-- Claim C8 witness: Destroy at the concrete state s0, which holds
handle 1. -/
theorem c8_destroy_idempotent_witness :
    (∀ h, s0.window_handle_ = some h →
      (s0.Destroy).1.window_handle_ = none ∧
      NativeCall.DestroyWindow h ∈ (s0.Destroy).2) ∧
    NativeCall.UnregisterClass s0.window_class_name_ ∈ (s0.Destroy).2 ∧
    (s0.Destroy).1.Destroy =
      ((s0.Destroy).1, [NativeCall.UnregisterClass s0.window_class_name_]) :=
  c8_destroy_idempotent s0

/-- Claim C10: InitializeChild begins with the full Destroy sequence
(its native calls are a prefix and its state is taken up to the class-name
update), so the stored handle is none throughout the creation request;
only the creation message wndProcNcCreate records the new handle, and it
stores exactly one handle. -/
theorem c10_initialize_child_destroys_first (s : Win32Window) (title : String)
    (width height : Nat) :
    (s.InitializeChild title width height).1.window_handle_ = none ∧
    (s.InitializeChild title width height).1 =
      { (s.Destroy).1 with window_class_name_ := title } ∧
    (s.InitializeChild title width height).2 =
      (s.Destroy).2 ++ [NativeCall.RegisterClass title,
        NativeCall.CreateWindowNative title width height] ∧
    (∀ h, (((s.InitializeChild title width height).1).wndProcNcCreate h).window_handle_
      = some h) := by
  cases hs : s.window_handle_ <;>
    simp [Win32Window.InitializeChild, Win32Window.Destroy, Win32Window.wndProcNcCreate, hs]

/-- Helper: the WM_MOUSEMOVE arm in closed form: the state always ends
with leave tracking armed, the TrackMouseEvent native call happens exactly
when it was unarmed, and one PointerMove event is emitted. -/
theorem MessageHandler_mousemove_step (env : Env) (lead : Nat) (s : Win32Window)
    (hwnd wparam lparam : Nat) :
    s.MessageHandler env true lead hwnd WM_MOUSEMOVE wparam lparam =
      ⟨lead, { s with tracking_mouse_leave_ := true },
       [Event.PointerMove (GET_X_LPARAM lparam) (GET_Y_LPARAM lparam)],
       if s.tracking_mouse_leave_ then [] else [NativeCall.TrackMouseEvent hwnd]⟩ := by
  obtain ⟨wh, cw, ch, cd, tm, kc, cn⟩ := s
  cases tm <;>
    simp [Win32Window.MessageHandler, Win32Window.TrackMouseLeaveEvent, WM_MOUSEMOVE,
      kWmDpiChangedBeforeParent, WM_SIZE, WM_FONTCHANGE]

/-- Helper: a block of WM_MOUSEMOVE messages emits no PointerLeave event,
leaves the shared lead surrogate untouched, and ends with the tracking
flag armed unless the block is empty and it was unarmed. -/
theorem processMoves_spec (env : Env) (hwnd : Nat) (moves : List (Nat × Nat)) :
    ∀ lead (s : Win32Window),
      (processMessages env hwnd lead s
        (moves.map fun p => (WM_MOUSEMOVE, p.1, p.2))).lead_surrogate = lead ∧
      (processMessages env hwnd lead s
        (moves.map fun p => (WM_MOUSEMOVE, p.1, p.2))).state =
        { s with tracking_mouse_leave_ := s.tracking_mouse_leave_ || !moves.isEmpty } ∧
      (processMessages env hwnd lead s
        (moves.map fun p => (WM_MOUSEMOVE, p.1, p.2))).events.filter Event.isPointerLeave
        = [] := by
  induction moves with
  | nil =>
    intro lead s
    simp [processMessages]
  | cons p rest ih =>
    intro lead s
    have hstep := MessageHandler_mousemove_step env lead s hwnd p.1 p.2
    have hrest := ih lead { s with tracking_mouse_leave_ := true }
    simp only [List.map_cons, processMessages, hstep]
    refine ⟨hrest.1, ?_, ?_⟩
    · rw [hrest.2.1]
      simp
    · simp [List.filter_append, hrest.2.2, Event.isPointerLeave]

/-- Helper: the WM_MOUSELEAVE arm in closed form, shared by several
proofs. -/
theorem MessageHandler_mouseleave_step (env : Env) (lead : Nat) (s : Win32Window)
    (hwnd wparam lparam : Nat) :
    s.MessageHandler env true lead hwnd WM_MOUSELEAVE wparam lparam =
      ⟨lead, { s with tracking_mouse_leave_ := false }, [Event.PointerLeave], []⟩ := by
  rfl

/-- Helper: processMessages distributes over list append. -/
theorem processMessages_append (env : Env) (hwnd : Nat) (l1 l2 : List (Nat × Nat × Nat)) :
    ∀ lead (s : Win32Window),
      processMessages env hwnd lead s (l1 ++ l2) =
        ⟨(processMessages env hwnd
            (processMessages env hwnd lead s l1).lead_surrogate
            (processMessages env hwnd lead s l1).state l2).lead_surrogate,
         (processMessages env hwnd
            (processMessages env hwnd lead s l1).lead_surrogate
            (processMessages env hwnd lead s l1).state l2).state,
         (processMessages env hwnd lead s l1).events ++
           (processMessages env hwnd
             (processMessages env hwnd lead s l1).lead_surrogate
             (processMessages env hwnd lead s l1).state l2).events,
         (processMessages env hwnd lead s l1).native ++
           (processMessages env hwnd
             (processMessages env hwnd lead s l1).lead_surrogate
             (processMessages env hwnd lead s l1).state l2).native⟩ := by
  induction l1 with
  | nil =>
    intro lead s
    simp [processMessages]
  | cons m rest ih =>
    intro lead s
    obtain ⟨mm, mw, ml⟩ := m
    simp [processMessages, ih]

/-- Claim C6: the leave-tracking flag is a two-state machine: a move
message always leaves the flag armed (arming it, with a TrackMouseEvent
native call, exactly when it was unarmed, and as a state no-op when
armed); a leave message emits PointerLeave and disarms; any block of move
messages followed by one leave message emits exactly one PointerLeave,
ends disarmed, and a subsequent move re-arms tracking. -/
theorem c6_leave_tracking_state_machine (env : Env) (hwnd lead : Nat) (s : Win32Window)
    (moves : List (Nat × Nat)) (wm lm wl ll : Nat) :
    (s.MessageHandler env true lead hwnd WM_MOUSEMOVE wm lm).state =
      { s with tracking_mouse_leave_ := true } ∧
    (s.MessageHandler env true lead hwnd WM_MOUSEMOVE wm lm).native =
      (if s.tracking_mouse_leave_ then [] else [NativeCall.TrackMouseEvent hwnd]) ∧
    (s.MessageHandler env true lead hwnd WM_MOUSELEAVE wl ll).events =
      [Event.PointerLeave] ∧
    (s.MessageHandler env true lead hwnd WM_MOUSELEAVE wl ll).state.tracking_mouse_leave_
      = false ∧
    ((processMessages env hwnd lead s
        ((moves.map fun p => (WM_MOUSEMOVE, p.1, p.2)) ++
          [(WM_MOUSELEAVE, wl, ll)])).events.filter Event.isPointerLeave).length = 1 ∧
    (processMessages env hwnd lead s
        ((moves.map fun p => (WM_MOUSEMOVE, p.1, p.2)) ++
          [(WM_MOUSELEAVE, wl, ll)])).state.tracking_mouse_leave_ = false ∧
    ((processMessages env hwnd lead s
        ((moves.map fun p => (WM_MOUSEMOVE, p.1, p.2)) ++
          [(WM_MOUSELEAVE, wl, ll)])).state.MessageHandler env true lead hwnd
            WM_MOUSEMOVE wm lm).state.tracking_mouse_leave_ = true := by
  have happ := processMessages_append env hwnd
    (moves.map fun p => (WM_MOUSEMOVE, p.1, p.2)) [(WM_MOUSELEAVE, wl, ll)] lead s
  have hmoves := processMoves_spec env hwnd moves lead s
  have hleave : ∀ lead2 (s2 : Win32Window),
      processMessages env hwnd lead2 s2 [(WM_MOUSELEAVE, wl, ll)] =
        ⟨lead2, { s2 with tracking_mouse_leave_ := false }, [Event.PointerLeave], []⟩ := by
    intro lead2 s2
    simp [processMessages, MessageHandler_mouseleave_step]
  refine ⟨by rw [MessageHandler_mousemove_step], by rw [MessageHandler_mousemove_step],
    by rw [MessageHandler_mouseleave_step], by rw [MessageHandler_mouseleave_step],
    ?_, ?_, ?_⟩ <;>
    rw [happ, hleave] <;>
    simp [List.filter_append, hmoves.2.2, Event.isPointerLeave,
      MessageHandler_mousemove_step]

/-- Helper: a key-down whose virtual key maps to a character records the
keycode and emits nothing. -/
theorem MessageHandler_keydown_char (env : Env) (lead : Nat) (s : Win32Window)
    (hwnd message wparam lparam : Nat)
    (hm : message = WM_KEYDOWN ∨ message = WM_SYSKEYDOWN)
    (hc : 0 < env.MapVirtualKeyToChar (wparam % 2 ^ 32)) :
    s.MessageHandler env true lead hwnd message wparam lparam =
      ⟨lead, { s with keycode_for_char_message_ := wparam % 2 ^ 32 }, [], []⟩ := by
  have hc2 : env.MapVirtualKeyToChar (wparam % 4294967296) ≠ 0 := by
    have hx := hc
    simp only [Nat.reducePow] at hx
    omega
  rcases hm with rfl | rfl <;>
    simp [Win32Window.MessageHandler, WM_KEYDOWN, WM_SYSKEYDOWN, WM_KEYUP, WM_SYSKEYUP,
      kWmDpiChangedBeforeParent, WM_SIZE, WM_FONTCHANGE, WM_MOUSEMOVE, WM_MOUSELEAVE,
      WM_LBUTTONDOWN, WM_RBUTTONDOWN, WM_MBUTTONDOWN, WM_XBUTTONDOWN, WM_LBUTTONUP,
      WM_RBUTTONUP, WM_MBUTTONUP, WM_XBUTTONUP, WM_MOUSEWHEEL, WM_UNICHAR, WM_CHAR,
      WM_SYSCHAR, WM_DEADCHAR, WM_SYSDEADCHAR, Nat.pos_iff_ne_zero, hc2]

/-- Helper: a key-down whose virtual key maps to no character emits one
Key event immediately, with no associated character. -/
theorem MessageHandler_keydown_nochar (env : Env) (lead : Nat) (s : Win32Window)
    (hwnd message wparam lparam : Nat)
    (hm : message = WM_KEYDOWN ∨ message = WM_SYSKEYDOWN)
    (hc : env.MapVirtualKeyToChar (wparam % 2 ^ 32) = 0) :
    s.MessageHandler env true lead hwnd message wparam lparam =
      ⟨lead, s,
       [Event.Key (resolveKeyCode env (wparam % 2 ^ 32) ((lparam >>> 16) &&& 0xff))
         ((lparam >>> 16) &&& 0xff) WM_KEYDOWN 0], []⟩ := by
  have hc2 : env.MapVirtualKeyToChar (wparam % 4294967296) = 0 := by
    simpa using hc
  rcases hm with rfl | rfl <;>
    simp [Win32Window.MessageHandler, WM_KEYDOWN, WM_SYSKEYDOWN, WM_KEYUP, WM_SYSKEYUP,
      kWmDpiChangedBeforeParent, WM_SIZE, WM_FONTCHANGE, WM_MOUSEMOVE, WM_MOUSELEAVE,
      WM_LBUTTONDOWN, WM_RBUTTONDOWN, WM_MBUTTONDOWN, WM_XBUTTONDOWN, WM_LBUTTONUP,
      WM_RBUTTONUP, WM_MBUTTONUP, WM_XBUTTONUP, WM_MOUSEWHEEL, WM_UNICHAR, WM_CHAR,
      WM_SYSCHAR, WM_DEADCHAR, WM_SYSDEADCHAR, hc2]

/-- Claim C4: a key-down whose virtual key maps to a printable character
emits no Key event at the key-down itself and records the keycode; the
subsequent character message emits exactly one Key event carrying the
recorded key code, the scancode from its own lparam, the key-down action
and the resolved code point, and clears the pending record; a key-down of
a non-character key emits exactly one Key event immediately with no
associated character. -/
theorem c4_keydown_char_correlation (env : Env) (hwnd lead lead2 : Nat) (s : Win32Window)
    (message wparam lparam msg2 wp2 lp2 : Nat)
    (hm : message = WM_KEYDOWN ∨ message = WM_SYSKEYDOWN)
    (hm2 : allWmChar msg2) :
    (0 < env.MapVirtualKeyToChar (wparam % 2 ^ 32) →
      (s.MessageHandler env true lead hwnd message wparam lparam).events = [] ∧
      (s.MessageHandler env true lead hwnd message wparam lparam).state =
        { s with keycode_for_char_message_ := wparam % 2 ^ 32 } ∧
      (wparam % 2 ^ 32 ≠ 0 →
        ((s.MessageHandler env true lead hwnd message wparam lparam).state.MessageHandler
            env true lead2 hwnd msg2 wp2 lp2).events.filter Event.isKey =
          [Event.Key (wparam % 2 ^ 32) ((lp2 >>> 16) &&& 0xff) WM_KEYDOWN
            (mergeSurrogate lead2 (wp2 % 2 ^ 32)).1] ∧
        ((s.MessageHandler env true lead hwnd message wparam lparam).state.MessageHandler
            env true lead2 hwnd msg2 wp2 lp2).state.keycode_for_char_message_ = 0)) ∧
    (env.MapVirtualKeyToChar (wparam % 2 ^ 32) = 0 →
      (s.MessageHandler env true lead hwnd message wparam lparam).events =
        [Event.Key (resolveKeyCode env (wparam % 2 ^ 32) ((lparam >>> 16) &&& 0xff))
          ((lparam >>> 16) &&& 0xff) WM_KEYDOWN 0]) := by
  constructor
  · intro hc
    rw [MessageHandler_keydown_char env lead s hwnd message wparam lparam hm hc]
    refine ⟨rfl, rfl, ?_⟩
    intro hz
    have hz2 : wparam % 4294967296 ≠ 0 := by
      simpa using hz
    rw [MessageHandler_char_step env lead2 { s with keycode_for_char_message_ := wparam % 2 ^ 32 }
      hwnd msg2 wp2 lp2 hm2]
    constructor
    · by_cases hch : wp2 ≠ VK_BACK ∧ (msg2 = WM_CHAR ∨ msg2 = WM_SYSCHAR) <;>
        simp [hch, hz2, Event.isKey, List.filter_append]
    · rfl
  · intro hc
    rw [MessageHandler_keydown_nochar env lead s hwnd message wparam lparam hm hc]

/-- Claim C4 witness: key-down of virtual key 65 in an environment where
it maps to a character, followed by a WM_CHAR message, at concrete
inputs. -/
theorem c4_keydown_char_correlation_witness :
    (0 < envTestChar.MapVirtualKeyToChar (65 % 2 ^ 32) →
      (s0.MessageHandler envTestChar true 0 1 WM_KEYDOWN 65 0x10000).events = [] ∧
      (s0.MessageHandler envTestChar true 0 1 WM_KEYDOWN 65 0x10000).state =
        { s0 with keycode_for_char_message_ := 65 % 2 ^ 32 } ∧
      (65 % 2 ^ 32 ≠ 0 →
        ((s0.MessageHandler envTestChar true 0 1 WM_KEYDOWN 65 0x10000).state.MessageHandler
            envTestChar true 0 1 WM_CHAR 0x61 0x10000).events.filter Event.isKey =
          [Event.Key (65 % 2 ^ 32) ((0x10000 >>> 16) &&& 0xff) WM_KEYDOWN
            (mergeSurrogate 0 (0x61 % 2 ^ 32)).1] ∧
        ((s0.MessageHandler envTestChar true 0 1 WM_KEYDOWN 65 0x10000).state.MessageHandler
            envTestChar true 0 1 WM_CHAR 0x61 0x10000).state.keycode_for_char_message_ = 0)) ∧
    (envTestChar.MapVirtualKeyToChar (65 % 2 ^ 32) = 0 →
      (s0.MessageHandler envTestChar true 0 1 WM_KEYDOWN 65 0x10000).events =
        [Event.Key (resolveKeyCode envTestChar (65 % 2 ^ 32) ((0x10000 >>> 16) &&& 0xff))
          ((0x10000 >>> 16) &&& 0xff) WM_KEYDOWN 0]) :=
  c4_keydown_char_correlation envTestChar 1 0 0 s0 WM_KEYDOWN 65 0x10000 WM_CHAR 0x61 0x10000
    (Or.inl rfl) (by decide)

/-- Claim C5: for a character-family message, a Char event is emitted if
and only if the message is WM_CHAR or WM_SYSCHAR and the wparam is not
VK_BACK; a dead-char message never produces a Char event regardless of
its code point, yet still produces the correlated Key event (and nothing
else) whenever a pending key-down keycode exists. -/
theorem c5_char_emission_iff (env : Env) (lead : Nat) (s : Win32Window)
    (hwnd message wparam lparam : Nat) (hm : allWmChar message) :
    (s.MessageHandler env true lead hwnd message wparam lparam).events.filter Event.isChar =
      (if (message = WM_CHAR ∨ message = WM_SYSCHAR) ∧ wparam ≠ VK_BACK then
        [Event.Char (mergeSurrogate lead (wparam % 2 ^ 32)).1]
      else []) ∧
    ((message = WM_DEADCHAR ∨ message = WM_SYSDEADCHAR) → s.keycode_for_char_message_ ≠ 0 →
      (s.MessageHandler env true lead hwnd message wparam lparam).events =
        [Event.Key s.keycode_for_char_message_ ((lparam >>> 16) &&& 0xff) WM_KEYDOWN
          (mergeSurrogate lead (wparam % 2 ^ 32)).1]) := by
  rw [MessageHandler_char_step env lead s hwnd message wparam lparam hm]
  constructor
  · by_cases h1 : wparam = VK_BACK <;>
      by_cases h2 : message = WM_CHAR ∨ message = WM_SYSCHAR <;>
        by_cases h3 : s.keycode_for_char_message_ = 0 <;>
          simp [h1, h2, h3, Event.isChar, List.filter_append]
  · rintro (rfl | rfl) hk <;>
      simp [hk, WM_DEADCHAR, WM_SYSDEADCHAR, WM_CHAR, WM_SYSCHAR]

/-- Claim C5 witness: a dead-char message with a pending keycode at
concrete inputs. -/
theorem c5_char_emission_iff_witness :
    (sPending.MessageHandler envTest true 0 1 WM_DEADCHAR 0xDE 0x10000).events.filter
      Event.isChar =
      (if (WM_DEADCHAR = WM_CHAR ∨ WM_DEADCHAR = WM_SYSCHAR) ∧ (0xDE : Nat) ≠ VK_BACK then
        [Event.Char (mergeSurrogate 0 (0xDE % 2 ^ 32)).1]
      else []) ∧
    ((WM_DEADCHAR = WM_DEADCHAR ∨ WM_DEADCHAR = WM_SYSDEADCHAR) →
      sPending.keycode_for_char_message_ ≠ 0 →
      (sPending.MessageHandler envTest true 0 1 WM_DEADCHAR 0xDE 0x10000).events =
        [Event.Key sPending.keycode_for_char_message_ ((0x10000 >>> 16) &&& 0xff) WM_KEYDOWN
          (mergeSurrogate 0 (0xDE % 2 ^ 32)).1]) :=
  c5_char_emission_iff envTest 0 sPending 1 WM_DEADCHAR 0xDE 0x10000 (by decide)

/-- Claim C1 counterexample: a WM_CHAR message whose code point 0xD800
lies in the high-surrogate range, arriving with a pending key-down
keycode, emits a Char event AND a Key event (both carrying the lone high
surrogate); processing does not stop after storing the pending lead
surrogate, so the claim that no event is emitted is false. -/
theorem c1_counterexample :
    (sPending.MessageHandler envTest true 0 1 WM_CHAR 0xD800 0x10000).events =
      [Event.Char 0xD800, Event.Key 65 1 WM_KEYDOWN 0xD800] ∧
    (sPending.MessageHandler envTest true 0 1 WM_CHAR 0xD800 0x10000).lead_surrogate =
      0xD800 := by
  decide

/-- Claim C1 amended: for a character-family message whose decoded code
point lies in the high-surrogate range, the code point is stored as the
pending lead surrogate, but processing continues: a Char event carrying
the lone high surrogate is emitted when the message is a plain or system
char with non-backspace wparam, and a recorded pending key-down keycode
still produces a Key event carrying the high surrogate. -/
theorem c1_high_surrogate_stores_and_continues (env : Env) (lead : Nat) (s : Win32Window)
    (hwnd message wparam lparam : Nat) (hm : allWmChar message)
    (hcp : (wparam % 2 ^ 32) &&& 0xFFFFFC00 = 0xD800) :
    (s.MessageHandler env true lead hwnd message wparam lparam).lead_surrogate =
      wparam % 2 ^ 32 ∧
    (s.MessageHandler env true lead hwnd message wparam lparam).events =
      (if wparam ≠ VK_BACK ∧ (message = WM_CHAR ∨ message = WM_SYSCHAR) then
        [Event.Char (wparam % 2 ^ 32)]
      else []) ++
      (if s.keycode_for_char_message_ ≠ 0 then
        [Event.Key s.keycode_for_char_message_ ((lparam >>> 16) &&& 0xff) WM_KEYDOWN
          (wparam % 2 ^ 32)]
      else []) := by
  have hmrg : mergeSurrogate lead (wparam % 2 ^ 32) = (wparam % 2 ^ 32, wparam % 2 ^ 32) := by
    have hn : wparam % 4294967296 &&& 4294966272 = 55296 := by
      simpa using hcp
    simp [mergeSurrogate, hn]
  rw [MessageHandler_char_step env lead s hwnd message wparam lparam hm, hmrg]
  exact ⟨rfl, rfl⟩

/-- Claim C1 amended witness: the high surrogate 0xD836 as a WM_CHAR
message at the concrete state sPending. -/
theorem c1_high_surrogate_stores_and_continues_witness :
    (sPending.MessageHandler envTest true 0 1 WM_CHAR 0xD836 0x10000).lead_surrogate =
      0xD836 % 2 ^ 32 ∧
    (sPending.MessageHandler envTest true 0 1 WM_CHAR 0xD836 0x10000).events =
      (if (0xD836 : Nat) ≠ VK_BACK ∧ (WM_CHAR = WM_CHAR ∨ WM_CHAR = WM_SYSCHAR) then
        [Event.Char (0xD836 % 2 ^ 32)]
      else []) ++
      (if sPending.keycode_for_char_message_ ≠ 0 then
        [Event.Key sPending.keycode_for_char_message_ ((0x10000 >>> 16) &&& 0xff) WM_KEYDOWN
          (0xD836 % 2 ^ 32)]
      else []) :=
  c1_high_surrogate_stores_and_continues envTest 0 sPending 1 WM_CHAR 0xD836 0x10000
    (by decide) (by decide)

/-- Claim C2 counterexample: feeding the high surrogate 0xD836 and then
the low surrogate 0xDC00 as WM_CHAR messages emits TWO Char events, the
first carrying the lone lead surrogate, not exactly one. -/
theorem c2_counterexample :
    ((processMessages envTest 1 0 s0
      [(WM_CHAR, 0xD836, 0), (WM_CHAR, 0xDC00, 0)]).events.filter Event.isChar).length = 2 ∧
    (processMessages envTest 1 0 s0
      [(WM_CHAR, 0xD836, 0), (WM_CHAR, 0xDC00, 0)]).events =
      [Event.Char 0xD836, Event.Char 0x1D800] := by
  decide

/-- Claim C2 amended: a high surrogate followed by a matching low
surrogate in successive plain or system char messages emits two Char
events in total: the lone lead surrogate first, then exactly one Char
carrying the merged supplementary-plane value 0x10000 plus the low ten
bits of each half, with the pending lead cleared at the merge. -/
theorem c2_surrogate_pair_two_chars (env : Env) (hwnd lead : Nat) (s : Win32Window)
    (m1 m2 wp1 lp1 wp2 lp2 : Nat)
    (hm1 : m1 = WM_CHAR ∨ m1 = WM_SYSCHAR) (hm2 : m2 = WM_CHAR ∨ m2 = WM_SYSCHAR)
    (h1 : (wp1 % 2 ^ 32) &&& 0xFFFFFC00 = 0xD800)
    (h2 : (wp2 % 2 ^ 32) &&& 0xFFFFFC00 = 0xDC00)
    (hk : s.keycode_for_char_message_ = 0) :
    (processMessages env hwnd lead s [(m1, wp1, lp1), (m2, wp2, lp2)]).events =
      [Event.Char (wp1 % 2 ^ 32),
       Event.Char (0x10000 + (((wp1 % 2 ^ 32) &&& 0x000003FF) <<< 10) +
         ((wp2 % 2 ^ 32) &&& 0x3FF))] ∧
    (processMessages env hwnd lead s [(m1, wp1, lp1), (m2, wp2, lp2)]).lead_surrogate
      = 0 := by
  have hall1 : allWmChar m1 := hm1.imp id Or.inl
  have hall2 : allWmChar m2 := hm2.imp id Or.inl
  have hne1 : wp1 ≠ VK_BACK := by
    rintro rfl
    exact absurd h1 (by decide)
  have hne2 : wp2 ≠ VK_BACK := by
    rintro rfl
    exact absurd h2 (by decide)
  have hz1 : wp1 % 2 ^ 32 ≠ 0 := by
    intro h0
    rw [h0] at h1
    exact absurd h1 (by decide)
  have h1n : wp1 % 4294967296 &&& 4294966272 = 55296 := by
    simpa using h1
  have h2n : wp2 % 4294967296 &&& 4294966272 = 56320 := by
    simpa using h2
  have hz1n : ¬wp1 % 4294967296 = 0 := by
    simpa using hz1
  have hmA : mergeSurrogate lead (wp1 % 2 ^ 32) = (wp1 % 2 ^ 32, wp1 % 2 ^ 32) := by
    simp [mergeSurrogate, h1n]
  have hmB : mergeSurrogate (wp1 % 2 ^ 32) (wp2 % 2 ^ 32) =
      (0x10000 + (((wp1 % 2 ^ 32) &&& 0x000003FF) <<< 10) + ((wp2 % 2 ^ 32) &&& 0x3FF), 0) := by
    simp [mergeSurrogate, h2n, hz1n]
  have hA := MessageHandler_char_step env lead s hwnd m1 wp1 lp1 hall1
  rw [hmA] at hA
  have hB := MessageHandler_char_step env (wp1 % 2 ^ 32)
    { s with keycode_for_char_message_ := 0 } hwnd m2 wp2 lp2 hall2
  rw [hmB] at hB
  simp only [Nat.reducePow] at hA hB ⊢
  simp [processMessages, hA, hB, hk, hne1, hne2, hm1, hm2]

/-- Claim C2 amended witness: the concrete pair 0xD836 then 0xDC37 as
WM_CHAR messages from the state s0. -/
theorem c2_surrogate_pair_two_chars_witness :
    (processMessages envTest 1 0 s0 [(WM_CHAR, 0xD836, 0), (WM_CHAR, 0xDC37, 0)]).events =
      [Event.Char (0xD836 % 2 ^ 32),
       Event.Char (0x10000 + (((0xD836 % 2 ^ 32) &&& 0x000003FF) <<< 10) +
         ((0xDC37 % 2 ^ 32) &&& 0x3FF))] ∧
    (processMessages envTest 1 0 s0
      [(WM_CHAR, 0xD836, 0), (WM_CHAR, 0xDC37, 0)]).lead_surrogate = 0 :=
  c2_surrogate_pair_two_chars envTest 1 0 s0 WM_CHAR WM_CHAR 0xD836 0 0xDC37 0
    (Or.inl rfl) (Or.inl rfl) (by decide) (by decide) rfl

/-- Claim C3 counterexample: after the high surrogate 0xD836, the
non-surrogate code point 0x61 does NOT discard the pending lead (the
claim says it must); the later low surrogate 0xDC37 therefore still
merges with the lead stored before the intervening message, emitting
Char 0x1D837 instead of processing 0xDC37 independently. -/
theorem c3_counterexample :
    (processMessages envTest 1 0 s0
      [(WM_CHAR, 0xD836, 0), (WM_CHAR, 0x61, 0), (WM_CHAR, 0xDC37, 0)]).events =
      [Event.Char 0xD836, Event.Char 0x61, Event.Char 0x1D837] ∧
    (processMessages envTest 1 0 s0
      [(WM_CHAR, 0xD836, 0), (WM_CHAR, 0x61, 0)]).lead_surrogate = 0xD836 := by
  decide

/-- Claim C3 amended: a character-family message whose code point is
neither a high nor a low surrogate is processed independently, but any
pending lead surrogate is left UNCHANGED, not discarded; consequently a
low surrogate arriving after such an intervening message can still merge
with a lead stored before it (as the counterexample shows). -/
theorem c3_non_surrogate_keeps_pending (env : Env) (lead : Nat) (s : Win32Window)
    (hwnd message wparam lparam : Nat) (hm : allWmChar message)
    (hhi : (wparam % 2 ^ 32) &&& 0xFFFFFC00 ≠ 0xD800)
    (hlo : (wparam % 2 ^ 32) &&& 0xFFFFFC00 ≠ 0xDC00) :
    (s.MessageHandler env true lead hwnd message wparam lparam).lead_surrogate = lead ∧
    (s.MessageHandler env true lead hwnd message wparam lparam).events =
      (if wparam ≠ VK_BACK ∧ (message = WM_CHAR ∨ message = WM_SYSCHAR) then
        [Event.Char (wparam % 2 ^ 32)]
      else []) ++
      (if s.keycode_for_char_message_ ≠ 0 then
        [Event.Key s.keycode_for_char_message_ ((lparam >>> 16) &&& 0xff) WM_KEYDOWN
          (wparam % 2 ^ 32)]
      else []) := by
  have hmrg : mergeSurrogate lead (wparam % 2 ^ 32) = (wparam % 2 ^ 32, lead) := by
    have hhin : ¬wparam % 4294967296 &&& 4294966272 = 55296 := by
      simpa using hhi
    have hlon : ¬wparam % 4294967296 &&& 4294966272 = 56320 := by
      simpa using hlo
    simp [mergeSurrogate, hhin, hlon]
  rw [MessageHandler_char_step env lead s hwnd message wparam lparam hm, hmrg]
  exact ⟨rfl, rfl⟩

/-- Claim C3 amended witness: the non-surrogate code point 0x61 arriving
while the lead 0xD836 is pending leaves the pending lead unchanged. -/
theorem c3_non_surrogate_keeps_pending_witness :
    (s0.MessageHandler envTest true 0xD836 1 WM_CHAR 0x61 0).lead_surrogate = 0xD836 ∧
    (s0.MessageHandler envTest true 0xD836 1 WM_CHAR 0x61 0).events =
      (if (0x61 : Nat) ≠ VK_BACK ∧ (WM_CHAR = WM_CHAR ∨ WM_CHAR = WM_SYSCHAR) then
        [Event.Char (0x61 % 2 ^ 32)]
      else []) ++
      (if s0.keycode_for_char_message_ ≠ 0 then
        [Event.Key s0.keycode_for_char_message_ ((0 >>> 16) &&& 0xff) WM_KEYDOWN
          (0x61 % 2 ^ 32)]
      else []) :=
  c3_non_surrogate_keeps_pending envTest 0xD836 s0 1 WM_CHAR 0x61 0
    (by decide) (by decide) (by decide)

/-- Claim C7 counterexample: with both windows live, the high surrogate
0xD836 delivered to window A merges with the low surrogate 0xDC37 later
delivered to window B, which emits the combined Char 0x1D837: the pending
lead surrogate is shared across windows, not per-window. -/
theorem c7_counterexample :
    (sysStep envTest 1 2
      (sysStep envTest 1 2 ⟨0, s0, s0⟩ Target.A WM_CHAR 0xD836 0).1
      Target.B WM_CHAR 0xDC37 0).2 = [Event.Char 0x1D837] := by
  decide

/-- Claim C7 amended: the pending lead surrogate is a single value of
static storage duration shared by all windows: for any system state, a
high surrogate delivered to window A is stored in the shared slot, and a
matching low surrogate then delivered to window B merges with it there,
B emitting the combined Char and the shared slot being cleared. -/
theorem c7_lead_surrogate_shared_across_windows (env : Env) (hwndA hwndB : Nat)
    (sys : SysState) (wp1 lp1 wp2 lp2 : Nat)
    (h1 : (wp1 % 2 ^ 32) &&& 0xFFFFFC00 = 0xD800)
    (h2 : (wp2 % 2 ^ 32) &&& 0xFFFFFC00 = 0xDC00)
    (hkB : sys.winB.keycode_for_char_message_ = 0) :
    ((sysStep env hwndA hwndB sys Target.A WM_CHAR wp1 lp1).1).lead_surrogate =
      wp1 % 2 ^ 32 ∧
    (sysStep env hwndA hwndB
      (sysStep env hwndA hwndB sys Target.A WM_CHAR wp1 lp1).1
      Target.B WM_CHAR wp2 lp2).2 =
      [Event.Char (0x10000 + (((wp1 % 2 ^ 32) &&& 0x000003FF) <<< 10) +
        ((wp2 % 2 ^ 32) &&& 0x3FF))] ∧
    ((sysStep env hwndA hwndB
      (sysStep env hwndA hwndB sys Target.A WM_CHAR wp1 lp1).1
      Target.B WM_CHAR wp2 lp2).1).lead_surrogate = 0 := by
  have hne2 : wp2 ≠ VK_BACK := by
    rintro rfl
    exact absurd h2 (by decide)
  have hz1 : wp1 % 2 ^ 32 ≠ 0 := by
    intro h0
    rw [h0] at h1
    exact absurd h1 (by decide)
  have h1n : wp1 % 4294967296 &&& 4294966272 = 55296 := by
    simpa using h1
  have h2n : wp2 % 4294967296 &&& 4294966272 = 56320 := by
    simpa using h2
  have hz1n : ¬wp1 % 4294967296 = 0 := by
    simpa using hz1
  have hmA : mergeSurrogate sys.lead_surrogate (wp1 % 2 ^ 32) =
      (wp1 % 2 ^ 32, wp1 % 2 ^ 32) := by
    simp [mergeSurrogate, h1n]
  have hmB : mergeSurrogate (wp1 % 2 ^ 32) (wp2 % 2 ^ 32) =
      (0x10000 + (((wp1 % 2 ^ 32) &&& 0x000003FF) <<< 10) + ((wp2 % 2 ^ 32) &&& 0x3FF), 0) := by
    simp [mergeSurrogate, h2n, hz1n]
  have hA := MessageHandler_char_step env sys.lead_surrogate sys.winA hwndA WM_CHAR wp1 lp1
    (Or.inl rfl)
  rw [hmA] at hA
  have hB := MessageHandler_char_step env (wp1 % 2 ^ 32) sys.winB hwndB WM_CHAR wp2 lp2
    (Or.inl rfl)
  rw [hmB] at hB
  simp only [Nat.reducePow] at hA hB ⊢
  simp [sysStep, hA, hB, hkB, hne2]

/-- Claim C7 amended witness: the concrete cross-window pair 0xD836 to A
then 0xDC37 to B. -/
theorem c7_lead_surrogate_shared_across_windows_witness :
    ((sysStep envTest 1 2 ⟨0, s0, s0⟩ Target.A WM_CHAR 0xD836 0).1).lead_surrogate =
      0xD836 % 2 ^ 32 ∧
    (sysStep envTest 1 2
      (sysStep envTest 1 2 ⟨0, s0, s0⟩ Target.A WM_CHAR 0xD836 0).1
      Target.B WM_CHAR 0xDC37 0).2 =
      [Event.Char (0x10000 + (((0xD836 % 2 ^ 32) &&& 0x000003FF) <<< 10) +
        ((0xDC37 % 2 ^ 32) &&& 0x3FF))] ∧
    ((sysStep envTest 1 2
      (sysStep envTest 1 2 ⟨0, s0, s0⟩ Target.A WM_CHAR 0xD836 0).1
      Target.B WM_CHAR 0xDC37 0).1).lead_surrogate = 0 :=
  c7_lead_surrogate_shared_across_windows envTest 1 2 ⟨0, s0, s0⟩ 0xD836 0 0xDC37 0
    (by decide) (by decide) rfl

end EngineWin32
